import Mathlib

/-!
Verification of the Loli job-orchestration core against its specification.

The definitions below are a shallow embedding of the Python sources:
`app/models/video.py`, `app/core/config.py`, `app/services/storage.py`,
`app/services/s3_video_service.py`, `app/services/ai_orchestrator.py`,
`app/services/video_processor.py` and `app/api/routes.py`.  Pure functions
become Lean functions; the in-memory registry and the filesystem become
explicit state passed through each operation; code that can raise returns
`Except PyErr`; a call that can block forever on the registry mutex returns
`Option` with `none` for "never returns".
-/

namespace Loli

/-- Job status enumeration, from `VideoStatus` in app/models/video.py. -/
inductive VideoStatus
  | queued
  | generating_script
  | rendering_video
  | uploading_to_s3
  | completed
  | completed_without_s3
  | failed
deriving DecidableEq, Repr

/-- A Python `datetime` value: an instant plus a time-zone-awareness flag.
Comparing an aware and a naive datetime raises `TypeError` in Python, which is
why the flag must be carried. -/
structure Datetime where
  aware : Bool
  t : Int
deriving DecidableEq, Repr

/-- Two datetimes can be ordered only when their awareness flags agree. -/
def Datetime.comparable (a b : Datetime) : Bool := a.aware == b.aware

/-- Modelled from the spec: the module `app.core.exceptions` is imported all
over the app but is absent from the sources; its exception classes
(`VideoNotFoundError`, `VideoProcessingError`, `ScriptGenerationError`) are
reconstructed from the error taxonomy of spec section 7, together with the
Python builtin exceptions the embedded code can raise (`TypeError`,
`AttributeError`, `ValueError`, `KeyError`) and the HTTP rejection used by the
routes. -/
inductive PyErr
  | videoNotFound (msg : String)
  | videoProcessing (msg : String) (details : String)
  | scriptGeneration (msg : String)
  | s3Upload (msg : String)
  | typeError (msg : String)
  | attributeError (msg : String)
  | valueError (msg : String)
  | keyError (msg : String)
  | httpException (statusCode : Nat) (detail : String)
deriving DecidableEq, Repr

/-- Python `str(e)`: the message carried by the exception. -/
def PyErr.str : PyErr → String
  | .videoNotFound m => m
  | .videoProcessing m _ => m
  | .scriptGeneration m => m
  | .s3Upload m => m
  | .typeError m => m
  | .attributeError m => m
  | .valueError m => m
  | .keyError m => m
  | .httpException _ d => d

/-- Job record, from `VideoInfo` in app/models/video.py. -/
structure VideoInfo where
  video_id : String
  status : VideoStatus
  message : String
  video_path : Option String := none
  s3_url : Option String := none
  created_at : Datetime
  script_content : Option String := none
  error_details : Option String := none
  progress : Nat := 0
  prompt : Option String := none
deriving DecidableEq, Repr

/-- Create-job request body, from `VideoRequest` in app/models/video.py. -/
structure VideoRequest where
  prompt : String
  model : Option String := some "claude-4-sonnet"
  voice : Option String := some "Joanna"
deriving DecidableEq, Repr

/-- Pydantic validation of the request body: `prompt` is declared
`Field(..., min_length=10, max_length=10000)`. -/
def VideoRequest.valid (r : VideoRequest) : Bool :=
  10 ≤ r.prompt.length && r.prompt.length ≤ 10000

/-- Configuration, from `Settings` in app/core/config.py (the fields the
modelled core reads, with their defaults). -/
structure Settings where
  BEDROCK_MODELS : List String :=
    ["titan-text-g1-express", "nova-pro", "claude-4-sonnet",
     "llama-3-2-3b-instruct", "mixtral-8x7b-instruct"]
  MANIM_PROCESSING_TIMEOUT : Nat := 300
  MAX_CONCURRENT_VIDEOS : Nat := 2
  VIDEOS_DIR : String := "generated_videos"
  TEMP_DIR : String := "/tmp/manim_videos"

/-- The module-level `settings` instance (all defaults). -/
def settings : Settings := {}

/-! Python `dict` operations on an insertion-ordered association list,
matching the semantics of `self._videos : Dict[str, VideoInfo]`. -/

/-- `d[k]` lookup returning `none` when the key is absent. -/
def dictGet (l : List (String × α)) (k : String) : Option α :=
  (l.find? (fun p => p.1 == k)).map (fun p => p.2)

/-- `d[k] = v`: overwrite in place when present, append when fresh. -/
def dictSet (l : List (String × α)) (k : String) (v : α) : List (String × α) :=
  if l.any (fun p => p.1 == k) then
    l.map (fun p => if p.1 == k then (k, v) else p)
  else l ++ [(k, v)]

/-- `del d[k]`. -/
def dictDel (l : List (String × α)) (k : String) : List (String × α) :=
  l.filter (fun p => !(p.1 == k))

/-- The in-memory registry owned by `VideoStorage` in app/services/storage.py. -/
structure Storage where
  videos : List (String × VideoInfo)
deriving DecidableEq, Repr

/-- One object in the remote S3 bucket, as consumed by
`VideoStorage._s3_to_video_info` (key fields of the listing entries). -/
structure S3Object where
  video_id : String
  s3_url : String
  last_modified : Datetime
  original_question : Option String := none
deriving DecidableEq, Repr

/-- The remote side as seen through `S3VideoService`: whether constructing the
service succeeded (`VideoStorage._get_s3_service` returns `None` otherwise) and
the bucket contents. -/
structure S3State where
  initOk : Bool
  objects : List S3Object
deriving DecidableEq, Repr

/-- The method names defined on the `S3VideoService` class in
app/services/s3_video_service.py.  Accessing any other attribute on a service
instance raises `AttributeError`. -/
def S3VideoService.methods : List String :=
  ["__init__", "upload_video", "_upload_file_sync", "_format_metadata",
   "get_public_url", "verify_upload", "_check_object_exists",
   "delete_video", "_delete_object_sync"]

/-- Python attribute lookup on an `S3VideoService` instance. -/
def S3VideoService.hasMethod (m : String) : Bool :=
  S3VideoService.methods.contains m

/-- `VideoStorage._s3_to_video_info`: materialize a synthetic COMPLETED record
from a remote listing entry, converting an offset-aware timestamp to naive. -/
def VideoStorage.s3_to_video_info (o : S3Object) : VideoInfo :=
  let created := if o.last_modified.aware then { o.last_modified with aware := false }
                 else o.last_modified
  { video_id := o.video_id
    status := .completed
    message := "Video completed"
    s3_url := some o.s3_url
    created_at := created
    prompt := some (o.original_question.getD ("Video " ++ o.video_id.take 8))
    progress := 100 }

/-- The `try: s3_service._list_videos_sync() ...` block inside
`VideoStorage.get_video`: the guard on `hasMethod` models Python attribute
lookup — `S3VideoService` defines no `_list_videos_sync`, so the access raises
`AttributeError`, which the surrounding `except Exception` swallows (`none`). -/
def trySyncListing (s3 : S3State) (vid : String) : Option VideoInfo :=
  if s3.initOk && S3VideoService.hasMethod "_list_videos_sync" then
    (s3.objects.find? (fun o => o.video_id == vid)).map VideoStorage.s3_to_video_info
  else none

/-- Message of `VideoNotFoundError` raised by the registry. -/
def notFoundMsg (vid : String) : String := "Video " ++ vid ++ " not found"

/-- `VideoStorage.get_video`.  `locked` is the state of `self._lock` (a
non-reentrant `threading.Lock`) on entry: `with self._lock` blocks forever when
the current thread already holds it, modelled as `none`. -/
def VideoStorage.get_video (st : Storage) (s3 : S3State) (vid : String)
    (locked : Bool) : Option (Except PyErr VideoInfo) :=
  if locked then none else some <|
    match dictGet st.videos vid with
    | some v => .ok v
    | none =>
      match trySyncListing s3 vid with
      | some info => .ok info
      | none => .error (.videoNotFound (notFoundMsg vid))

/-- The keyword updates accepted by `VideoStorage.update_video`; each field is
`some x` when the keyword was passed.  An inner `Option` distinguishes setting
an optional attribute from leaving it alone. -/
structure VideoUpdate where
  status : Option VideoStatus := none
  message : Option String := none
  progress : Option Nat := none
  video_path : Option (Option String) := none
  s3_url : Option (Option String) := none
  script_content : Option (Option String) := none
  error_details : Option (Option String) := none
deriving DecidableEq, Repr

/-- The `setattr` loop of `VideoStorage.update_video`. -/
def VideoInfo.applyUpdate (v : VideoInfo) (u : VideoUpdate) : VideoInfo :=
  { v with
    status := u.status.getD v.status
    message := u.message.getD v.message
    progress := u.progress.getD v.progress
    video_path := u.video_path.getD v.video_path
    s3_url := u.s3_url.getD v.s3_url
    script_content := u.script_content.getD v.script_content
    error_details := u.error_details.getD v.error_details }

/-- `VideoStorage.update_video`: raises `VideoNotFoundError` when the id is
unknown, otherwise merges the updates in place.  (Called with the registry
lock free; it does not re-enter the lock.) -/
def VideoStorage.update_video (st : Storage) (vid : String) (u : VideoUpdate) :
    Except PyErr (Storage × VideoInfo) :=
  match dictGet st.videos vid with
  | none => .error (.videoNotFound (notFoundMsg vid))
  | some v =>
    let v' := v.applyUpdate u
    .ok ({ videos := dictSet st.videos vid v' }, v')

/-- The QUEUED record built by `VideoStorage.create_video`. -/
def mkQueuedInfo (vid prompt : String) (now : Datetime) : VideoInfo :=
  { video_id := vid
    status := .queued
    message := "Video generation queued"
    created_at := now
    prompt := some prompt }

/-- `VideoStorage.create_video`. -/
def VideoStorage.create_video (st : Storage) (vid prompt : String)
    (now : Datetime) : Storage × VideoInfo :=
  let info := mkQueuedInfo vid prompt now
  ({ videos := dictSet st.videos vid info }, info)

/-- `VideoStorage.get_active_video_count`: records in a non-terminal status. -/
def active_statuses : List VideoStatus :=
  [.queued, .generating_script, .rendering_video, .uploading_to_s3]

/-- Count of active records, from `VideoStorage.get_active_video_count`. -/
def VideoStorage.get_active_video_count (st : Storage) : Nat :=
  (st.videos.filter (fun p => active_statuses.contains p.2.status)).length

/-! Filesystem model for the renderer and for artifact deletion.  A file is
recorded with the directory tree it lives in, its name and its size; `rmtree`
on a directory drops every file recorded under it. -/

/-- A file on disk: enclosing directory tree, file name, size in bytes. -/
structure FileRec where
  dir : String
  name : String
  size : Nat
deriving DecidableEq, Repr

/-- Filesystem state; `next` feeds `mkdtemp` with fresh directory names. -/
structure FS where
  dirs : List String := []
  files : List FileRec := []
  next : Nat := 0
deriving DecidableEq, Repr

/-- `tempfile.mkdtemp(prefix=f"manim_{video_id}_", dir=self.temp_dir)`. -/
def FS.mkdtemp (fs : FS) (cfg : Settings) (vid : String) : String × FS :=
  let dir := cfg.TEMP_DIR ++ "/manim_" ++ vid ++ "_" ++ toString fs.next
  (dir, { fs with dirs := dir :: fs.dirs, next := fs.next + 1 })

/-- `shutil.rmtree(dir, ignore_errors=True)`. -/
def FS.rmtree (fs : FS) (d : String) : FS :=
  { fs with dirs := fs.dirs.filter (fun x => !(x == d))
            files := fs.files.filter (fun f => !(f.dir == d)) }

/-- Full path of a recorded file, as `os.path.join` would produce it. -/
def FileRec.path (f : FileRec) : String := f.dir ++ "/" ++ f.name

/-- `os.path.exists` on a file path. -/
def FS.fileExists (fs : FS) (p : String) : Bool :=
  fs.files.any (fun f => f.path == p)

/-- `os.remove` on a file path. -/
def FS.removeFile (fs : FS) (p : String) : FS :=
  { fs with files := fs.files.filter (fun f => !(f.path == p)) }

/-- `VideoStorage.delete_video`.  The method body runs inside
`with self._lock:` and its first statement is `self.get_video(video_id)`;
`get_video` opens its own `with self._lock:` on the same non-reentrant
`threading.Lock`, so it is entered with `locked := true`.  The remainder of
the body (file removal, `del self._videos[video_id]`, the
`except VideoNotFoundError: return False` arm) is transliterated even though
it is unreachable behind the blocked nested acquisition. -/
def VideoStorage.delete_video (st : Storage) (fs : FS) (s3 : S3State)
    (vid : String) : Option (Except PyErr (Storage × FS × Bool)) :=
  match VideoStorage.get_video st s3 vid true with
  | none => none
  | some (.error (.videoNotFound _)) => some (.ok (st, fs, false))
  | some (.error e) => some (.error e)
  | some (.ok v) =>
    let fs' := match v.video_path with
      | some p => if fs.fileExists p then fs.removeFile p else fs
      | none => fs
    if st.videos.any (fun p => p.1 == vid) then
      some (.ok ({ videos := dictDel st.videos vid }, fs', true))
    else
      some (.error (.keyError vid))

/-! Listing.  Python `sorted(key=..., reverse=True)` is a stable descending
sort; it is modelled by insertion keeping an element before every element its
key is greater than or equal to, which preserves the original order of equal
keys.  Comparing `created_at` keys of mixed time-zone awareness raises
`TypeError`, caught by `list_videos` which then re-sorts by `video_id`. -/

/-- Insert into a descending-sorted list; `ge x y` reads "key of x is greater
than or equal to key of y". -/
def insertDesc (ge : α → α → Bool) (x : α) : List α → List α
  | [] => [x]
  | y :: ys => if ge x y then x :: y :: ys else y :: insertDesc ge x ys

/-- Stable descending sort. -/
def sortDesc (ge : α → α → Bool) : List α → List α
  | [] => []
  | x :: xs => insertDesc ge x (sortDesc ge xs)

/-- Whether every pair of `created_at` keys in the list is comparable, i.e.
sorting by `created_at` cannot raise `TypeError`. -/
def allComparable (l : List VideoInfo) : Bool :=
  l.all (fun a => l.all (fun b => a.created_at.comparable b.created_at))

/-- The `try: await s3_service.list_all_videos() ...` block inside
`VideoStorage.list_videos`: as with `trySyncListing`, `S3VideoService` defines
no `list_all_videos`, so the attribute access raises `AttributeError`, which
the surrounding `except Exception` turns into an empty contribution. -/
def tryListAllVideos (s3 : S3State) : Option (List S3Object) :=
  if s3.initOk && S3VideoService.hasMethod "list_all_videos" then some s3.objects
  else none

/-- `VideoStorage.list_videos`: merge local records with remote-only records,
optionally filter by status, sort by `created_at` descending, falling back to
sorting by `video_id` if the datetime comparison raises. -/
def VideoStorage.list_videos (st : Storage) (s3 : S3State)
    (statusFilter : Option VideoStatus) : List VideoInfo :=
  let memory_videos := st.videos.map (fun p => p.2)
  let memory_ids := st.videos.map (fun p => p.1)
  let s3_videos := match tryListAllVideos s3 with
    | some objs =>
      (objs.filter (fun o => !(memory_ids.contains o.video_id))).map
        VideoStorage.s3_to_video_info
    | none => []
  let all_videos := memory_videos ++ s3_videos
  let filtered := match statusFilter with
    | some s => all_videos.filter (fun v => v.status == s)
    | none => all_videos
  if allComparable filtered then
    sortDesc (fun a b => decide (b.created_at.t ≤ a.created_at.t)) filtered
  else
    sortDesc (fun a b => decide (b.video_id ≤ a.video_id)) filtered

/-! The pipeline orchestrator, from app/services/ai_orchestrator.py.  The
stage prompts built by the `_prompt_*` helpers are long literal texts wrapping
the previous stage's output; they are modelled as tagged constructors carrying
that output, since no verified property depends on the prompt wording and the
tags keep the stages distinguishable to the provider oracles. -/

/-- The five pipeline-stage prompts of `AIOrchestrator`. -/
inductive Prompt
  | initialExplanation (question : String)
  | refineExplanation (explanation : String)
  | generateScript (refined : String)
  | validateScript (script : String)
  | validateVisual (script : String)
deriving DecidableEq, Repr

/-- Python call semantics for a method applied with the wrong number of
positional arguments: `TypeError` is raised before the body runs. -/
def pyCallArity (params nargs : Nat) (msg : String) (body : Except PyErr α) :
    Except PyErr α :=
  if nargs = params then body else .error (.typeError msg)

/-- Parameters of `BedrockService.add_voiceover_functionality` besides `self`:
`script_content`, `original_prompt`, `model` (aws_bedrock.py line 321). -/
def bedrock_add_voiceover_params : Nat := 3

/-- Positional arguments passed to `self.bedrock.add_voiceover_functionality`
at its call site in `AIOrchestrator._add_voiceover_functionality`
(ai_orchestrator.py line 163): `script_content`, `original_prompt`, `model`,
`voice`. -/
def bedrock_add_voiceover_nargs : Nat := 4

/-- The external LLM providers behind `OpenAIService` and `BedrockService`,
as oracles: each call either returns generated text or raises. -/
structure Providers where
  openai : Prompt → Except PyErr String
  bedrock : Prompt → String → Except PyErr String
  openaiVoiceover : String → String → String → Except PyErr String
  bedrockVoiceover : String → String → String → Except PyErr String

/-- `AIOrchestrator._llm`: route to OpenAI for `gpt-5`, to Bedrock for a known
Bedrock model, otherwise raise `ValueError`. -/
def AIOrchestrator.llm (pr : Providers) (cfg : Settings) (model : String)
    (p : Prompt) : Except PyErr String :=
  if model = "gpt-5" then pr.openai p
  else if cfg.BEDROCK_MODELS.contains model then pr.bedrock p model
  else .error (.valueError ("Unsupported model: " ++ model))

/-- Substring test, `pat in s` for a non-empty `pat`. -/
def containsSub (s pat : String) : Bool := (s.splitOn pat).length > 1

/-- Literal-text replacement, `s.replace(pat, repl)` for a non-empty `pat`. -/
def replaceSub (s pat repl : String) : String :=
  String.intercalate repl (s.splitOn pat)

/-- `AIOrchestrator._clean_script` and `_fix_common_issues`: strip markdown
fences, trim, and apply the literal-pattern repairs.  The two genuinely
regex-based rewrites (code-fence markers at arbitrary positions and the
capture-group `.normalize()` rewrite) are modelled as the corresponding
literal replacements; no verified property depends on their output text. -/
def AIOrchestrator.clean_script (s : String) : String :=
  let s := replaceSub s "```python\n" ""
  let s := replaceSub s "```" ""
  let s := s.trim
  let s := replaceSub s "VGroup(*self.mobjects)"
    "Group(*[mob for mob in self.mobjects if hasattr(mob, \"animate\")])"
  if containsSub s "np.linalg.norm" && !(containsSub s "import numpy as np") then
    "import numpy as np\n" ++ s
  else s

/-- The `re.sub` renaming a `Scene`-derived class header to `VoiceoverScene`,
modelled as the literal replacement of the canonical header text. -/
def subSceneToVoiceoverScene (s : String) : String :=
  replaceSub s "(Scene):" "(VoiceoverScene):"

/-- `AIOrchestrator._ensure_polly_imports`. -/
def AIOrchestrator.ensure_polly_imports (s : String) : String :=
  if containsSub s "VoiceoverScene" && !(containsSub s "create_polly_service") then
    if containsSub s "from manim import *" then
      replaceSub s "from manim import *"
        "from manim import *\nfrom app.services.aws_polly import create_polly_service"
    else "from app.services.aws_polly import create_polly_service\n" ++ s
  else s

/-- `AIOrchestrator._add_voiceover_imports`. -/
def AIOrchestrator.add_voiceover_imports (s : String) : String :=
  if containsSub s "from manim import *" then
    replaceSub s "from manim import *"
      "from manim import *\nfrom manim_voiceover import VoiceoverScene\nfrom app.services.aws_polly import create_polly_service"
  else
    "from manim import *\nfrom manim_voiceover import VoiceoverScene\nfrom app.services.aws_polly import create_polly_service\n\n" ++ s

/-- The speech-service initialization block injected after
`def construct(self):`, with the requested voice. -/
def speechServiceInit (voice : String) : String :=
  "        # Initialize speech service\n        self.set_speech_service(\n            create_polly_service(\n                voice=\"" ++
    voice ++ "\",\n                style=\"friendly\"\n            )\n        )\n\n"

/-- `AIOrchestrator._add_basic_voiceover_structure`: the hand-constructed
narration scaffold used when AI voiceover integration fails. -/
def AIOrchestrator.add_basic_voiceover_structure (script voice : String) : String :=
  let s := if !(containsSub script "from manim_voiceover") then
      "from manim_voiceover import VoiceoverScene\nfrom app.services.aws_polly import create_polly_service\n" ++ script
    else script
  let s := subSceneToVoiceoverScene s
  replaceSub s "def construct(self):\n" ("def construct(self):\n" ++ speechServiceInit voice)

/-- `AIOrchestrator._add_voiceover_functionality` (stage 6): try the AI
voiceover integration; any exception — including the `TypeError` from the
mismatched Bedrock call arity — is caught and answered with the basic
scaffold, so this stage never raises. -/
def AIOrchestrator.add_voiceover_functionality (pr : Providers)
    (script question model voice : String) : String :=
  let attempt : Except PyErr String :=
    if model = "gpt-5" then pr.openaiVoiceover script question voice
    else
      pyCallArity bedrock_add_voiceover_params bedrock_add_voiceover_nargs
        "add_voiceover_functionality() takes 4 positional arguments but 5 were given"
        (pr.bedrockVoiceover script question model)
  match attempt with
  | .error _ => AIOrchestrator.add_basic_voiceover_structure script voice
  | .ok vs =>
    let c := AIOrchestrator.clean_script vs
    let c := AIOrchestrator.ensure_polly_imports c
    if !(containsSub c "VoiceoverScene") then
      let c := if !(containsSub c "from manim_voiceover") then
          AIOrchestrator.add_voiceover_imports c
        else c
      subSceneToVoiceoverScene c
    else c

/-- `AIOrchestrator.generate_video_content`: the five staged LLM calls run in
one `try:` block whose `except` re-raises any failure as
`ScriptGenerationError`, then stage 6 (which never raises) is applied. -/
def AIOrchestrator.generate_video_content (pr : Providers) (cfg : Settings)
    (question model voice : String) : Except PyErr String :=
  let staged : Except PyErr String := do
    let initial ← AIOrchestrator.llm pr cfg model (.initialExplanation question)
    let refined ← AIOrchestrator.llm pr cfg "gpt-5" (.refineExplanation initial)
    let script ← AIOrchestrator.llm pr cfg "claude-4-sonnet" (.generateScript refined)
    let validated ← AIOrchestrator.llm pr cfg "claude-4-sonnet" (.validateScript script)
    let visual ← AIOrchestrator.llm pr cfg "claude-4-sonnet" (.validateVisual validated)
    pure (AIOrchestrator.add_voiceover_functionality pr visual question model voice)
  match staged with
  | .ok s => .ok s
  | .error e => .error (.scriptGeneration ("Pipeline failed: " ++ e.str))

/-! The rendering engine adapter, from app/services/video_processor.py.  The
external `manim` child process is abstracted by a `RenderBehavior`: how long
it would run, its exit code, its stderr, and the files it would write under
the working directory's media tree. -/

/-- Observable behavior of one renderer child process. -/
structure RenderBehavior where
  wallTime : Nat
  returncode : Int
  stderr : String
  producedFiles : List (String × Nat) := []
deriving DecidableEq, Repr

/-- `VideoProcessor._run_manim`: write the script into the working directory,
run the renderer under `timeout = min(settings.MANIM_PROCESSING_TIMEOUT, 300)`,
raise on timeout or non-zero exit, else search the working-directory tree for
a produced `.mp4` of more than 1000 bytes. -/
def VideoProcessor.run_manim (cfg : Settings) (fs : FS)
    (script_content temp_dir : String) (beh : RenderBehavior) :
    FS × Except PyErr FileRec :=
  let fs := { fs with files := ⟨temp_dir, "scene.py", script_content.length⟩ :: fs.files }
  let timeout := min cfg.MANIM_PROCESSING_TIMEOUT 300
  if timeout < beh.wallTime then
    (fs, .error (.videoProcessing "Video generation timed out" ""))
  else
    let fs := { fs with
      files := fs.files ++ beh.producedFiles.map (fun p => FileRec.mk temp_dir p.1 p.2) }
    if beh.returncode ≠ 0 then
      (fs, .error (.videoProcessing ("Manim execution failed: " ++ beh.stderr) ""))
    else
      match fs.files.find? (fun f =>
          f.dir == temp_dir && f.name.endsWith ".mp4" && 1000 < f.size) with
      | some f => (fs, .ok f)
      | none => (fs, .error (.videoProcessing "No video file generated by Manim" ""))

/-- `VideoProcessor._move_to_permanent_location`: copy the artifact to
`{videos_dir}/{video_id}.mp4` and verify the copy landed. -/
def VideoProcessor.move_to_permanent_location (cfg : Settings) (fs : FS)
    (artifact : FileRec) (vid : String) : FS × Except PyErr String :=
  let final : FileRec := ⟨cfg.VIDEOS_DIR, vid ++ ".mp4", artifact.size⟩
  let fs := { fs with files := final :: fs.files }
  if fs.fileExists final.path then (fs, .ok final.path)
  else (fs, .error (.videoProcessing "Failed to copy video to permanent location" ""))

/-- The `try:` body of `VideoProcessor.process_video`: render, then move the
artifact to permanent storage; the `except` arm wraps any failure in
`VideoProcessingError("Failed to process video", details=str(e))`. -/
def VideoProcessor.process_video_body (cfg : Settings) (fs : FS)
    (script_content temp_dir vid : String) (beh : RenderBehavior) :
    FS × Except PyErr String :=
  match VideoProcessor.run_manim cfg fs script_content temp_dir beh with
  | (fs', .ok artifact) =>
    match VideoProcessor.move_to_permanent_location cfg fs' artifact vid with
    | (fs'', .ok final_path) => (fs'', .ok final_path)
    | (fs'', .error e) =>
      (fs'', .error (.videoProcessing "Failed to process video" e.str))
  | (fs', .error e) =>
    (fs', .error (.videoProcessing "Failed to process video" e.str))

/-- `VideoProcessor.process_video`: create the per-job working directory, run
the body, and — in the `finally:` arm — remove the working directory on every
exit path before returning. -/
def VideoProcessor.process_video (cfg : Settings) (fs : FS)
    (script_content vid : String) (beh : RenderBehavior) :
    FS × Except PyErr String :=
  let made := FS.mkdtemp fs cfg vid
  let out := VideoProcessor.process_video_body cfg made.2 script_content made.1 vid beh
  (FS.rmtree out.1 made.1, out.2)

/-! The routes layer, from app/api/routes.py. -/

/-- Parameters of `VideoProcessor.process_video` besides `self`:
`script_content`, `video_id` (video_processor.py line 30). -/
def process_video_params : Nat := 2

/-- Positional arguments passed to `video_processor.process_video` at its call
site in `generate_video_task` (routes.py line 77): `script_content`,
`video_id`, `video_metadata`. -/
def process_video_call_nargs : Nat := 3

/-- Message of the `TypeError` raised by that call. -/
def processVideoTypeErrorMsg : String :=
  "process_video() takes 3 positional arguments but 4 were given"

/-- The `except Exception` arm of `generate_video_task`: drive the record to
FAILED with the diagnostic; if that update itself raises (the record is gone),
the exception propagates out of the background task. -/
def driverExcept (st : Storage) (vid : String) (e : PyErr) :
    Storage × Except PyErr Unit :=
  match VideoStorage.update_video st vid
      { status := some .failed, message := some "Video generation failed",
        error_details := some (some e.str) } with
  | .ok (st', _) => (st', .ok ())
  | .error e' => (st, .error e')

/-- `generate_video_task`, the job driver: progress updates, the pipeline, and
the render-and-publish call.  The `video_path, s3_url = await
video_processor.process_video(script_content, video_id, video_metadata)` call
passes three positional arguments to a two-parameter method, so it is guarded
by `pyCallArity`; `procResult` is the pair the call would deliver were the
arity right.  Note the pipeline is invoked as
`script_generator.generate_video_content(prompt, model)`, leaving `voice` at
its default `"Joanna"`. -/
def generate_video_task (cfg : Settings) (st : Storage) (vid prompt model _voice : String)
    (pr : Providers) (procResult : Except PyErr (String × Option String)) :
    Storage × Except PyErr Unit :=
  match VideoStorage.update_video st vid
      { status := some .generating_script,
        message := some "Running LLM pipeline (explanation → refinement → script → validation)...",
        progress := some 25 } with
  | .error e => driverExcept st vid e
  | .ok (st1, _) =>
    match AIOrchestrator.generate_video_content pr cfg prompt model "Joanna" with
    | .error e => driverExcept st1 vid e
    | .ok script_content =>
      match VideoStorage.update_video st1 vid
          { script_content := some (some script_content), progress := some 40 } with
      | .error e => driverExcept st1 vid e
      | .ok (st2, _) =>
        match VideoStorage.update_video st2 vid
            { status := some .rendering_video, message := some "Rendering video...",
              progress := some 50 } with
        | .error e => driverExcept st2 vid e
        | .ok (st3, _) =>
          match VideoStorage.update_video st3 vid
              { status := some .uploading_to_s3, message := some "Uploading video to S3...",
                progress := some 85 } with
          | .error e => driverExcept st3 vid e
          | .ok (st4, _) =>
            match pyCallArity process_video_params process_video_call_nargs
                processVideoTypeErrorMsg procResult with
            | .error e => driverExcept st4 vid e
            | .ok (video_path, s3_url) =>
              let final_status := if s3_url.isSome then VideoStatus.completed
                                  else VideoStatus.completed_without_s3
              let final_message := if s3_url.isSome then
                  "Video generated and uploaded successfully"
                else "Video generated successfully (S3 upload failed)"
              match VideoStorage.update_video st4 vid
                  { status := some final_status, message := some final_message,
                    video_path := some (some video_path), s3_url := some s3_url,
                    progress := some 100 } with
              | .error e => driverExcept st4 vid e
              | .ok (st5, _) => (st5, .ok ())

/-- Detail of the 429 rejection in `create_video`. -/
def capacityMsg : String :=
  "Maximum concurrent video generation limit reached. Please try again later."

/-- The `create_video` route handler: reject with 429 when the active count
has reached `MAX_CONCURRENT_VIDEOS`, otherwise create and return a QUEUED
record (the driver is then scheduled as a detached background task). -/
def create_video (cfg : Settings) (st : Storage) (req : VideoRequest)
    (video_id : String) (now : Datetime) : Storage × Except PyErr VideoInfo :=
  if cfg.MAX_CONCURRENT_VIDEOS ≤ VideoStorage.get_active_video_count st then
    (st, .error (.httpException 429 capacityMsg))
  else
    let created := VideoStorage.create_video st video_id req.prompt now
    (created.1, .ok created.2)

/-- Detail of the 422 rejection produced by request validation. -/
def validationMsg : String := "request body failed validation"

/-- The full request path for POST /videos: pydantic validates the
`VideoRequest` body before the handler runs; on validation failure FastAPI
answers 422 and no handler code executes. -/
def handle_create_video (cfg : Settings) (st : Storage) (req : VideoRequest)
    (video_id : String) (now : Datetime) : Storage × Except PyErr VideoInfo :=
  if req.valid then create_video cfg st req video_id now
  else (st, .error (.httpException 422 validationMsg))

/-! Concrete fixtures used by the theorems below. -/

/-- A naive timestamp. -/
def dt0 : Datetime := ⟨false, 0⟩

/-- The end-to-end scenario prompt from spec section 8. -/
def promptPythagoras : String := "Explain the Pythagorean theorem"

/-- A registry holding exactly one QUEUED job `j1`. -/
def stJ1 : Storage := ⟨[("j1", mkQueuedInfo "j1" promptPythagoras dt0)]⟩

/-- A registry at the configured concurrency ceiling: two active records. -/
def stBusy : Storage :=
  ⟨[("a1", mkQueuedInfo "a1" "first busy prompt text" dt0),
    ("a2", mkQueuedInfo "a2" "second busy prompt text" dt0)]⟩

/-- A well-formed create request. -/
def reqPy : VideoRequest := { prompt := promptPythagoras }

/-- A remote bucket holding one artifact `o2` and a working service init. -/
def s3Remote : S3State :=
  ⟨true, [⟨"o2", "https://loli-bucket.s3.eu-west-3.amazonaws.com/o2.mp4",
           ⟨true, 50⟩, some "What is a derivative"⟩]⟩

/-- Providers that answer every call successfully. -/
def prOk : Providers :=
  { openai := fun _ => .ok "refined explanation"
    bedrock := fun _ _ =>
      .ok "from manim import *\nclass DemoScene(Scene):\n    def construct(self):\n        pass\n"
    openaiVoiceover := fun _ _ _ => .ok "voiceover script"
    bedrockVoiceover := fun _ _ _ => .ok "voiceover script" }

/-- Providers that fail exactly at stage 4 (syntactic validation) and succeed
everywhere else. -/
def prFailStage4 : Providers :=
  { openai := fun _ => .ok "refined explanation"
    bedrock := fun p _ =>
      match p with
      | .validateScript _ => .error (.scriptGeneration "boom")
      | _ => .ok "script body"
    openaiVoiceover := fun _ _ _ => .ok "voiceover script"
    bedrockVoiceover := fun _ _ _ => .ok "voiceover script" }

/-! Helper lemmas. -/

/-- `S3VideoService` defines no `_list_videos_sync`. -/
theorem hasMethod_list_videos_sync :
    S3VideoService.hasMethod "_list_videos_sync" = false := by decide

/-- `S3VideoService` defines no `list_all_videos`. -/
theorem hasMethod_list_all_videos :
    S3VideoService.hasMethod "list_all_videos" = false := by decide

/-- The remote fallback of `get_video` is dead code: the attribute access
always raises, so the lookup contributes nothing. -/
theorem trySyncListing_eq_none (s3 : S3State) (vid : String) :
    trySyncListing s3 vid = none := by
  simp [trySyncListing, hasMethod_list_videos_sync]

/-- The remote fetch of `list_videos` is dead code for the same reason. -/
theorem tryListAllVideos_eq_none (s3 : S3State) :
    tryListAllVideos s3 = none := by
  simp [tryListAllVideos, hasMethod_list_all_videos]

theorem mem_insertDesc {ge : α → α → Bool} {x a : α} {l : List α} :
    a ∈ insertDesc ge x l ↔ a = x ∨ a ∈ l := by
  induction l with
  | nil => simp [insertDesc]
  | cons y ys ih =>
    by_cases h : ge x y
    · simp [insertDesc, h]
    · simp [insertDesc, h, ih]
      tauto

theorem mem_sortDesc {ge : α → α → Bool} {a : α} {l : List α} :
    a ∈ sortDesc ge l ↔ a ∈ l := by
  induction l with
  | nil => simp [sortDesc]
  | cons x xs ih => simp [sortDesc, mem_insertDesc, ih]

theorem dictSet_fresh {l : List (String × α)} {k : String} (v : α)
    (h : dictGet l k = none) : dictSet l k v = l ++ [(k, v)] := by
  have hf : l.find? (fun p => p.1 == k) = none := by
    cases hh : l.find? (fun p => p.1 == k) with
    | none => rfl
    | some p => rw [dictGet, hh] at h; simp at h
  rw [dictSet, if_neg]
  intro hc
  obtain ⟨p, hp, hpk⟩ := List.any_eq_true.mp hc
  exact absurd hpk (by simpa using List.find?_eq_none.mp hf p hp)

theorem dictGet_append (l₁ l₂ : List (String × α)) (k : String) :
    dictGet (l₁ ++ l₂) k
      = match dictGet l₁ k with
        | some v => some v
        | none => dictGet l₂ k := by
  induction l₁ with
  | nil => simp [dictGet]
  | cons p ps ih =>
    by_cases h : p.1 == k
    · simp [dictGet, List.find?, h]
    · have h' : (p.1 == k) = false := by simpa using h
      simp only [dictGet, List.cons_append, List.find?, h', List.append_eq] at *
      exact ih

theorem dictGet_singleton_self (k : String) (v : α) :
    dictGet [(k, v)] k = some v := by
  simp [dictGet, List.find?]

theorem dictGet_singleton_ne {k k' : String} (v : α) (h : k' ≠ k) :
    dictGet [(k, v)] k' = none := by
  have h' : (k == k') = false := by
    rw [beq_eq_false_iff_ne]
    exact fun he => h he.symm
  simp [dictGet, List.find?, h']

/-! The claims. -/

/-- C9: the claim says `delete(id)` twice returns `true` then `false` and
removes the local artifact.  In the code `delete_video` acquires the
registry's non-reentrant `threading.Lock` and its first statement calls
`get_video`, which re-acquires the same lock: every call to `delete_video`
blocks forever and never returns a value at all, for every registry state,
filesystem, remote state and id. -/
theorem delete_video_never_returns (st : Storage) (fs : FS) (s3 : S3State)
    (vid : String) : VideoStorage.delete_video st fs s3 vid = none := by
  simp [VideoStorage.delete_video, VideoStorage.get_video]

/-- C3: the claim says `get(id)` for a locally unknown id consults the remote
listing and materializes a synthetic COMPLETED record when the artifact
exists remotely.  In the code the consultation calls
`s3_service._list_videos_sync()`, a method `S3VideoService` does not define;
the `AttributeError` is swallowed and `get` raises `NotFound` for every
locally unknown id — including `o2`, which exists in the remote bucket. -/
theorem get_video_remote_fallback_dead :
    (∀ st s3 vid, VideoStorage.get_video st s3 vid false
        = some (match dictGet st.videos vid with
                | some v => .ok v
                | none => .error (.videoNotFound (notFoundMsg vid))))
  ∧ VideoStorage.get_video ⟨[]⟩ s3Remote "o2" false
      = some (.error (.videoNotFound (notFoundMsg "o2")))
  ∧ (s3Remote.objects.map (fun o => o.video_id)).contains "o2" = true
  ∧ s3Remote.initOk = true := by
  refine ⟨fun st s3 vid => ?_, rfl, by decide, rfl⟩
  rw [VideoStorage.get_video, if_neg (by simp), trySyncListing_eq_none]

/-- C4 (counterexample): the claim says a driver whose record was deleted
treats its registry update as a no-op and completes without raising.  On the
empty registry the driver's very first update raises `VideoNotFoundError`,
and the `except` arm's own FAILED update raises it again, so the background
task exits with the error instead of completing. -/
theorem deleted_record_update_not_noop :
    (generate_video_task settings ⟨[]⟩ "j1" promptPythagoras "claude-4-sonnet"
        "Joanna" prOk (.ok ("generated_videos/j1.mp4", none))).2
      = .error (.videoNotFound (notFoundMsg "j1")) := rfl

/-- C4 (amended): for every job whose record is gone when the driver runs,
the driver's registry update raises `NotFound` rather than being a no-op; the
failure handler's own update raises again, so the driver exits with the
`NotFound` error, and the registry is left exactly as it was — in particular
the record is not re-created. -/
theorem driver_update_after_delete_raises (cfg : Settings) (st : Storage)
    (vid prompt model voice : String) (pr : Providers)
    (procResult : Except PyErr (String × Option String))
    (h : dictGet st.videos vid = none) :
    generate_video_task cfg st vid prompt model voice pr procResult
      = (st, .error (.videoNotFound (notFoundMsg vid))) := by
  simp [generate_video_task, VideoStorage.update_video, driverExcept, h]

/-- C4 (witness): the amended theorem at a concrete registry that holds `j1`
but not the deleted `j2`. -/
theorem driver_update_after_delete_raises_witness :
    generate_video_task settings stJ1 "j2" "some other prompt text"
        "claude-4-sonnet" "Joanna" prOk (.error (.s3Upload "upload failed"))
      = (stJ1, .error (.videoNotFound (notFoundMsg "j2"))) :=
  driver_update_after_delete_raises settings stJ1 "j2" "some other prompt text"
    "claude-4-sonnet" "Joanna" prOk (.error (.s3Upload "upload failed")) rfl

/-- C10: every create request whose prompt is shorter than 10 characters or
longer than 10000 characters is rejected by request validation with a 422
before the handler runs: no record is created and the registry is returned
unchanged. -/
theorem invalid_prompt_rejected_before_create (cfg : Settings) (st : Storage)
    (req : VideoRequest) (vid : String) (now : Datetime)
    (h : req.prompt.length < 10 ∨ 10000 < req.prompt.length) :
    handle_create_video cfg st req vid now
      = (st, .error (.httpException 422 validationMsg)) := by
  have hv : req.valid = false := by
    rw [VideoRequest.valid]
    rcases h with h | h
    · rw [decide_eq_false (by omega), Bool.false_and]
    · rw [Bool.and_eq_false_iff]
      exact Or.inr (decide_eq_false (by omega))
  simp [handle_create_video, hv]

/-- C10 (witness): a five-character prompt is rejected and the (empty)
registry is unchanged. -/
theorem invalid_prompt_rejected_before_create_witness :
    handle_create_video settings ⟨[]⟩ { prompt := "short" } "j1" dt0
      = (⟨[]⟩, .error (.httpException 422 validationMsg)) :=
  invalid_prompt_rejected_before_create settings ⟨[]⟩ { prompt := "short" }
    "j1" dt0 (Or.inl (by decide))

/-- C5: a create request is rejected with the 429 capacity signal exactly
when the count of records in a non-terminal status has reached the configured
ceiling; below the ceiling a new QUEUED record is created (appended for a
fresh id), returned, retrievable under its id, and no other record changes. -/
theorem create_video_admission_control (cfg : Settings) (st : Storage)
    (req : VideoRequest) (vid : String) (now : Datetime)
    (hfresh : dictGet st.videos vid = none) :
    (cfg.MAX_CONCURRENT_VIDEOS ≤ VideoStorage.get_active_video_count st →
        create_video cfg st req vid now
          = (st, .error (.httpException 429 capacityMsg)))
  ∧ (VideoStorage.get_active_video_count st < cfg.MAX_CONCURRENT_VIDEOS →
        create_video cfg st req vid now
            = ({ videos := st.videos ++ [(vid, mkQueuedInfo vid req.prompt now)] },
               .ok (mkQueuedInfo vid req.prompt now))
          ∧ (mkQueuedInfo vid req.prompt now).status = .queued
          ∧ dictGet (st.videos ++ [(vid, mkQueuedInfo vid req.prompt now)]) vid
              = some (mkQueuedInfo vid req.prompt now)
          ∧ ∀ k, k ≠ vid →
              dictGet (st.videos ++ [(vid, mkQueuedInfo vid req.prompt now)]) k
                = dictGet st.videos k) := by
  constructor
  · intro hle
    rw [create_video, if_pos hle]
  · intro hlt
    refine ⟨?_, rfl, ?_, ?_⟩
    · rw [create_video, if_neg (by omega), VideoStorage.create_video,
        dictSet_fresh _ hfresh]
    · rw [dictGet_append, hfresh, dictGet_singleton_self]
    · intro k hk
      rw [dictGet_append, dictGet_singleton_ne _ hk]
      cases dictGet st.videos k <;> rfl

/-- C5 (witness): with the default ceiling of 2 and two active records, the
next create request is rejected with the 429 capacity signal. -/
theorem create_video_admission_control_witness :
    create_video settings stBusy reqPy "j9" dt0
      = (stBusy, .error (.httpException 429 capacityMsg)) :=
  (create_video_admission_control settings stBusy reqPy "j9" dt0 rfl).1
    (by decide)

/-- `shutil.rmtree` leaves no trace of the removed directory. -/
theorem rmtree_removes_dir (fs : FS) (d : String) :
    ((FS.rmtree fs d).dirs.contains d) = false := by
  simp [FS.rmtree]

/-- `shutil.rmtree` leaves no file recorded under the removed directory. -/
theorem rmtree_removes_files (fs : FS) (d : String) :
    ((FS.rmtree fs d).files.all (fun f => !(f.dir == d))) = true := by
  rw [FS.rmtree, List.all_eq_true]
  intro f hf
  exact (List.mem_filter.mp hf).2

/-- C7: the per-job working directory created by `process_video` is removed
before the call returns, on every exit path — the render behavior ranges over
success, non-zero exit, missing artifact and timeout — and no file recorded
under it survives. -/
theorem process_video_cleans_workdir (cfg : Settings) (fs : FS)
    (script vid : String) (beh : RenderBehavior) :
    ((VideoProcessor.process_video cfg fs script vid beh).1.dirs.contains
        (FS.mkdtemp fs cfg vid).1) = false
  ∧ ((VideoProcessor.process_video cfg fs script vid beh).1.files.all
        (fun f => !(f.dir == (FS.mkdtemp fs cfg vid).1))) = true :=
  ⟨rmtree_removes_dir _ _, rmtree_removes_files _ _⟩

/-- C1: the claim says a job whose pipeline and render succeed but whose S3
upload fails terminates as COMPLETED_WITHOUT_S3 with `video_path` set and
`s3_url` absent, and that publish failure never drives the job to FAILED.  In
the code `generate_video_task` passes three positional arguments to
`VideoProcessor.process_video`, which declares two, so the call raises
`TypeError` before any render or upload happens: whatever value the call
would have delivered — including a successful render with a failed upload —
the job terminates FAILED with the `TypeError` text recorded, `video_path`
unset and `s3_url` unset, and the except arm completes normally. -/
theorem job_fails_regardless_of_publish_result
    (procResult : Except PyErr (String × Option String)) :
    ((dictGet (generate_video_task settings stJ1 "j1" promptPythagoras
          "claude-4-sonnet" "Joanna" prOk procResult).1.videos "j1").map
        (fun v => (v.status, v.video_path, v.s3_url))
      = some (VideoStatus.failed, none, none))
  ∧ (generate_video_task settings stJ1 "j1" promptPythagoras
        "claude-4-sonnet" "Joanna" prOk procResult).2 = .ok () :=
  ⟨rfl, rfl⟩

/-- C8: for every configuration the renderer timeout is the configured value
capped at 300 seconds — a child process needing more than 300 seconds times
out no matter how large `MANIM_PROCESSING_TIMEOUT` is configured, and
`process_video` then fails with the timeout-shaped error.  However, the
claimed driver half does not hold: the driver records the `TypeError` of the
mismatched `process_video` call for every job, never a render timeout (the
renderer is never reached from the driver), so the FAILED record carries the
`TypeError` text whatever the render call would have produced. -/
theorem render_timeout_capped_driver_never_sees_it (cfg : Settings) (fs : FS)
    (script vid : String) (beh : RenderBehavior) (hcap : 300 < beh.wallTime) :
    (VideoProcessor.process_video cfg fs script vid beh).2
      = .error (.videoProcessing "Failed to process video"
          "Video generation timed out")
  ∧ min cfg.MANIM_PROCESSING_TIMEOUT 300 ≤ 300
  ∧ ∀ procResult,
      (dictGet (generate_video_task settings stJ1 "j1" promptPythagoras
            "claude-4-sonnet" "Joanna" prOk procResult).1.videos "j1").map
          (fun v => v.error_details)
        = some (some processVideoTypeErrorMsg) := by
  refine ⟨?_, Nat.min_le_right _ _, fun procResult => rfl⟩
  have ht : (min cfg.MANIM_PROCESSING_TIMEOUT 300 < beh.wallTime) := by
    have := Nat.min_le_right cfg.MANIM_PROCESSING_TIMEOUT 300
    omega
  rw [VideoProcessor.process_video, VideoProcessor.process_video_body,
    VideoProcessor.run_manim, if_pos ht]
  rfl

/-- C8 (witness): with the default 300-second configuration, a render needing
301 seconds makes `process_video` fail with the timeout-shaped error. -/
theorem render_timeout_capped_witness :
    (VideoProcessor.process_video settings ⟨[], [], 0⟩ "script text" "j1"
        ⟨301, 0, "", []⟩).2
      = .error (.videoProcessing "Failed to process video"
          "Video generation timed out") :=
  (render_timeout_capped_driver_never_sees_it settings ⟨[], [], 0⟩
    "script text" "j1" ⟨301, 0, "", []⟩ (by decide)).1

/-- C2 (counterexample): the claim says a failure in stage 4 (syntactic
validation) is caught at its call site and the pipeline proceeds with the
best script so far.  With providers that succeed at stages 1–3 and fail only
at stage 4, the pipeline does not proceed: `generate_video_content` re-raises
the failure as `ScriptGenerationError`, which aborts the job. -/
theorem stage4_failure_aborts :
    AIOrchestrator.generate_video_content prFailStage4 settings
        "Explain the chain rule to me" "claude-4-sonnet" "Joanna"
      = .error (.scriptGeneration "Pipeline failed: boom")
  ∧ AIOrchestrator.llm prFailStage4 settings "claude-4-sonnet"
      (.generateScript "refined explanation") = .ok "script body" :=
  ⟨rfl, rfl⟩

/-- C2 (amended): a failure in any of stages 1–5 — including stage 4
(syntactic validation) and stage 5 (compositional validation) — escapes the
single `try:` around the staged calls and aborts the pipeline as
`ScriptGenerationError`; only stage 6 (narration augmentation) is caught at
its call site, and when its provider call fails — which on the Bedrock path
it always does, through a mismatched call arity — the pipeline proceeds with
the deterministic basic voiceover scaffold instead of aborting. -/
theorem pipeline_stage_failure_policy (pr : Providers) (cfg : Settings)
    (q model voice e1 e2 s3v : String) (err : PyErr)
    (h1 : AIOrchestrator.llm pr cfg model (.initialExplanation q) = .ok e1)
    (h2 : AIOrchestrator.llm pr cfg "gpt-5" (.refineExplanation e1) = .ok e2)
    (h3 : AIOrchestrator.llm pr cfg "claude-4-sonnet" (.generateScript e2)
        = .ok s3v) :
    (AIOrchestrator.llm pr cfg "claude-4-sonnet" (.validateScript s3v)
        = .error err →
      AIOrchestrator.generate_video_content pr cfg q model voice
        = .error (.scriptGeneration ("Pipeline failed: " ++ err.str)))
  ∧ (∀ s4, AIOrchestrator.llm pr cfg "claude-4-sonnet" (.validateScript s3v)
        = .ok s4 →
      AIOrchestrator.llm pr cfg "claude-4-sonnet" (.validateVisual s4)
        = .error err →
      AIOrchestrator.generate_video_content pr cfg q model voice
        = .error (.scriptGeneration ("Pipeline failed: " ++ err.str)))
  ∧ (∀ s4 s5, AIOrchestrator.llm pr cfg "claude-4-sonnet" (.validateScript s3v)
        = .ok s4 →
      AIOrchestrator.llm pr cfg "claude-4-sonnet" (.validateVisual s4)
        = .ok s5 →
      AIOrchestrator.generate_video_content pr cfg q model voice
        = .ok (AIOrchestrator.add_voiceover_functionality pr s5 q model voice))
  ∧ (model ≠ "gpt-5" →
      AIOrchestrator.add_voiceover_functionality pr s3v q model voice
        = AIOrchestrator.add_basic_voiceover_structure s3v voice) := by
  refine ⟨?_, ?_, ?_, ?_⟩
  · intro h4
    rw [AIOrchestrator.generate_video_content]
    simp only [h1, h2, h3, h4, Except.bind, bind]
  · intro s4 h4 h5
    rw [AIOrchestrator.generate_video_content]
    simp only [h1, h2, h3, h4, h5, Except.bind, bind]
  · intro s4 s5 h4 h5
    rw [AIOrchestrator.generate_video_content]
    simp only [h1, h2, h3, h4, h5, Except.bind, bind]
    rfl
  · intro hm
    rw [AIOrchestrator.add_voiceover_functionality, if_neg hm]
    rfl

/-- C2 (witness): the amended theorem instantiated at providers failing
exactly at stage 4, discharging the stage hypotheses concretely. -/
theorem pipeline_stage_failure_policy_witness :
    AIOrchestrator.generate_video_content prFailStage4 settings
        "What is modular arithmetic" "claude-4-sonnet" "Joanna"
      = .error (.scriptGeneration "Pipeline failed: boom") :=
  (pipeline_stage_failure_policy prFailStage4 settings
    "What is modular arithmetic" "claude-4-sonnet" "Joanna" "script body"
    "refined explanation" "script body" (.scriptGeneration "boom")
    rfl rfl rfl).1 rfl

/-- The listing can only ever surface records taken from the local table:
its remote fetch always raises and is swallowed. -/
theorem list_videos_subset_local (st : Storage) (s3 : S3State)
    (f : Option VideoStatus) :
    ∀ v ∈ VideoStorage.list_videos st s3 f, ∃ p ∈ st.videos, p.2 = v := by
  intro v hv
  rw [VideoStorage.list_videos.eq_def, tryListAllVideos_eq_none] at hv
  simp only [List.append_nil] at hv
  have hmem : v ∈ st.videos.map (fun p => p.2) := by
    rcases hf : f with _ | s
    · rw [hf] at hv
      split at hv <;> exact mem_sortDesc.mp hv
    · rw [hf] at hv
      have := by
        split at hv <;> exact mem_sortDesc.mp hv
      exact (List.mem_filter.mp this).1
  obtain ⟨p, hp, hpv⟩ := List.mem_map.mp hmem
  exact ⟨p, hp, hpv⟩

/-- C6: the claim says `list()` merges local records with remote-only
records, deduplicated by id, and for one local QUEUED job plus one remote-only
artifact returns both.  In the code `list_videos` calls
`s3_service.list_all_videos()`, a method `S3VideoService` does not define; the
`AttributeError` is swallowed and the merge contributes nothing: every listed
record comes from the local table, and in the claim's own scenario the listing
returns only the local `j1`, dropping the remote-only `o2`. -/
theorem list_videos_drops_remote_records :
    (∀ st s3 f, (VideoStorage.list_videos st s3 f).all
        (fun v => st.videos.any (fun p => decide (p.2 = v))) = true)
  ∧ (VideoStorage.list_videos stJ1 s3Remote none).map (fun v => v.video_id)
      = ["j1"]
  ∧ s3Remote.objects.map (fun o => o.video_id) = ["o2"]
  ∧ stJ1.videos.map (fun p => p.1) = ["j1"] := by
  refine ⟨fun st s3 f => ?_, rfl, rfl, rfl⟩
  rw [List.all_eq_true]
  intro v hv
  obtain ⟨p, hp, hpv⟩ := list_videos_subset_local st s3 f v hv
  rw [List.any_eq_true]
  exact ⟨p, hp, by simp [hpv]⟩

end Loli
